import Mathlib

/-!
Shallow embedding of the utf42 single-header library (src/utf42.h, src/test.cpp).

Modelling conventions:
* A character type used as a template argument is modelled by the tag type `Ty`.
  The five supported character types get one tag each; every other C++ type is
  represented by `Ty.other n` (an infinite family of unsupported types).
* A `std::basic_string_view<char_t>` (and the fallback `utf42::basic_string_view`)
  is a non-owning pointer plus a length.  A view's code units are modelled as
  natural numbers; the memory reachable from the data pointer is a `List Nat`
  and the null character is `0`.
* The C++20 `poly_enc` stores one view per supported width; its fields keep the
  source names `TXT_CHAR`, `TXT_CHAR_W`, `TXT_CHAR_8`, `TXT_CHAR_16`, `TXT_CHAR_32`.
-/

namespace Utf42

/-- Tag universe for template type arguments: the five supported character
types of src/utf42.h plus an infinite family `other n` of all remaining C++
types (`int`, `bool`, user types, ...). -/
inductive Ty where
  | char : Ty
  | wchar_t : Ty
  | char8_t : Ty
  | char16_t : Ty
  | char32_t : Ty
  | other : Nat → Ty
deriving DecidableEq, Repr

/-- Embeds `utf42::is_char` (src/utf42.h lines 150-158, and the concept
`CharType`, line 175-176): the disjunction of the five `std::is_same_v` tests. -/
def is_char (T : Ty) : Bool :=
  decide (T = Ty.char) ||
  decide (T = Ty.wchar_t) ||
  decide (T = Ty.char8_t) ||
  decide (T = Ty.char16_t) ||
  decide (T = Ty.char32_t)

/-- Embeds the C++20 `utf42::poly_enc` (src/utf42.h lines 205-263): one
read-only view per supported character width.  Each view is modelled by its
list of code units. -/
structure poly_enc where
  TXT_CHAR : List Nat
  TXT_CHAR_W : List Nat
  TXT_CHAR_8 : List Nat
  TXT_CHAR_16 : List Nat
  TXT_CHAR_32 : List Nat
deriving DecidableEq, Repr

/-- Embeds the C++20 constructor `poly_enc::poly_enc` (src/utf42.h lines
221-233): the member-initializer list copies each argument into the matching
field. -/
def poly_enc.cons (txt_char txt_char_w txt_char_8 txt_char_16 txt_char_32 : List Nat) :
    poly_enc :=
  { TXT_CHAR := txt_char
    TXT_CHAR_W := txt_char_w
    TXT_CHAR_8 := txt_char_8
    TXT_CHAR_16 := txt_char_16
    TXT_CHAR_32 := txt_char_32 }

/-- Embeds the C++20 `poly_enc::visit` (src/utf42.h lines 247-262): the
`if constexpr` chain over `std::is_same_v` tests, with the final (dead,
concept-excluded) `else` returning the empty view. -/
def poly_enc.visit (p : poly_enc) (T : Ty) : List Nat :=
  if T = Ty.char then p.TXT_CHAR
  else if T = Ty.wchar_t then p.TXT_CHAR_W
  else if T = Ty.char8_t then p.TXT_CHAR_8
  else if T = Ty.char16_t then p.TXT_CHAR_16
  else if T = Ty.char32_t then p.TXT_CHAR_32
  else []

/-- Embeds `utf42::visit_poly_enc` (src/utf42.h lines 277-281): delegates to
`poly_enc::visit`. -/
def visit_poly_enc (T : Ty) (oPolyEnv : poly_enc) : List Nat :=
  oPolyEnv.visit T

/-- State-passing translation of the `const` member call `p.visit<T>()`
(src/utf42.h lines 247-262): the body contains no assignment to any member,
so the post-state of the receiver is the receiver itself; the pair returns
the computed view together with the receiver after the call. -/
def poly_enc.visitSt (p : poly_enc) (T : Ty) : List Nat × poly_enc :=
  (p.visit T, p)

/-- State-passing translation of the call `visit_poly_enc<T>(p)` (src/utf42.h
lines 277-281), which reads `p` through a `const` reference. -/
def visit_poly_encSt (T : Ty) (oPolyEnv : poly_enc) : List Nat × poly_enc :=
  (visit_poly_enc T oPolyEnv, oPolyEnv)

/-- Embeds the C++17 `utf42::poly_enc` (src/utf42.h lines 294-353): four
fields, no `char8_t` view at that standard level. -/
structure poly_enc17 where
  TXT_CHAR : List Nat
  TXT_CHAR_W : List Nat
  TXT_CHAR_16 : List Nat
  TXT_CHAR_32 : List Nat
deriving DecidableEq, Repr

/-- Embeds the C++17 `poly_enc::visit` value computation (src/utf42.h lines
333-346): the `if constexpr` chain with the `else` branch returning the empty
view `std::basic_string_view<char_t>()`. -/
def poly_enc17.visit (p : poly_enc17) (T : Ty) : List Nat :=
  if T = Ty.char then p.TXT_CHAR
  else if T = Ty.wchar_t then p.TXT_CHAR_W
  else if T = Ty.char16_t then p.TXT_CHAR_16
  else if T = Ty.char32_t then p.TXT_CHAR_32
  else []

/-- Embeds the condition of the `static_assert` at the end of the C++17
`poly_enc::visit` (src/utf42.h lines 348-351).  The assert is not inside any
discarded `if constexpr` branch, so instantiating `visit<T>` compiles exactly
when this condition holds for `T`. -/
def visit17_assert_cond (T : Ty) : Bool :=
  decide (T = Ty.char) ||
  decide (T = Ty.wchar_t) ||
  decide (T = Ty.char16_t) ||
  decide (T = Ty.char32_t)

/-- Whether instantiating the C++17 `poly_enc::visit<T>` compiles: the
`static_assert` (src/utf42.h lines 348-351) must hold. -/
def visit17_compiles (T : Ty) : Bool :=
  visit17_assert_cond T

/-- Whether `T` has an explicit specialization of the C++14/C++11
`poly_enc::visit` (src/utf42.h lines 826-847: `char`, `wchar_t`, `char16_t`,
`char32_t`). -/
def visit14_has_specialization (T : Ty) : Bool :=
  decide (T = Ty.char) ||
  decide (T = Ty.wchar_t) ||
  decide (T = Ty.char16_t) ||
  decide (T = Ty.char32_t)

/-- Embeds the condition of the `static_assert` in the primary template of the
C++14/C++11 `poly_enc::visit` (src/utf42.h line 821): literally `false`. -/
def visit14_primary_assert_cond : Bool :=
  false

/-- Whether instantiating the C++14/C++11 `poly_enc::visit<T>` compiles:
either an explicit specialization is selected, or the primary template is
selected and its `static_assert` condition holds (it never does; the primary
also returns `{nullptr}` through a deleted constructor, src/utf42.h line 822
and 649). -/
def visit14_compiles (T : Ty) : Bool :=
  visit14_has_specialization T || visit14_primary_assert_cond

/-- Embeds the fallback `utf42::basic_string_view` (src/utf42.h lines 386-536
for C++14 and lines 622-741 for C++11; the two have identical data members and
identical bodies for `length`, `operator[]`, `at`, `operator==`, `operator!=`).
`m_pData` models the memory reachable from the data pointer, one code unit per
element; `m_nSize` is the stored size, which the source never re-checks against
the pointed-to data. -/
structure basic_string_view where
  m_pData : List Nat
  m_nSize : Nat
deriving DecidableEq, Repr

/-- Embeds `basic_string_view::length` (src/utf42.h line 435 / 656). -/
def basic_string_view.length (v : basic_string_view) : Nat :=
  v.m_nSize

/-- The message of the `std::out_of_range` exception thrown by `operator[]`
and `at` (src/utf42.h lines 446, 459, 667, 680). -/
def oor_msg : String :=
  "basic_string_view: index out of range"

/-- Embeds `basic_string_view::operator[]` (src/utf42.h lines 444-448 / 665-669):
throws `std::out_of_range` when `pos >= m_nSize`, otherwise reads
`m_pData[pos]`.  A throw is modelled as `Except.error`; the memory read is
`List.getD` (reading past the provided data, undefined behaviour in C++, reads
the default `0`). -/
def basic_string_view.op_index (v : basic_string_view) (pos : Nat) : Except String Nat :=
  if pos ≥ v.m_nSize then Except.error oor_msg
  else Except.ok (v.m_pData.getD pos 0)

/-- Embeds `basic_string_view::at` (src/utf42.h lines 457-461 / 678-682); the
body is identical to `operator[]`. -/
def basic_string_view.at_idx (v : basic_string_view) (pos : Nat) : Except String Nat :=
  if pos ≥ v.m_nSize then Except.error oor_msg
  else Except.ok (v.m_pData.getD pos 0)

/-- Embeds `basic_string_view::operator==` (src/utf42.h lines 490-496 /
711-717): sizes must match, then character-by-character comparison over all
indices below `m_nSize`. -/
def basic_string_view.op_eq (a b : basic_string_view) : Bool :=
  if a.m_nSize ≠ b.m_nSize then false
  else (List.range a.m_nSize).all fun i => a.m_pData.getD i 0 == b.m_pData.getD i 0

/-- Embeds `basic_string_view::operator!=` (src/utf42.h lines 504-506 /
725-727): the negation of `operator==`. -/
def basic_string_view.op_ne (a b : basic_string_view) : Bool :=
  !(a.op_eq b)

/-- Embeds the private helper `basic_string_view::str_len` (src/utf42.h lines
529-535): counts characters until the first null.  The `[]` case models the
loop running past the provided data, undefined behaviour in C++. -/
def str_len : List Nat → Nat
  | [] => 0
  | c :: rest => if c = 0 then 0 else str_len rest + 1

/-- Embeds the C++14 pointer constructor `basic_string_view(const char_t *pStr)`
(src/utf42.h lines 406-408): stores the pointer and the length computed by
`str_len`. -/
def basic_string_view.cons_from_ptr (pStr : List Nat) : basic_string_view :=
  { m_pData := pStr, m_nSize := str_len pStr }

/-- Embeds the C++11 array-reference constructor
`basic_string_view(const char_t (&pStr)[N])` (src/utf42.h lines 642-646):
stores the pointer and `N - 1`, where `N` is the array extent (here the list
length); `static_assert(N > 0)` guards the extent. -/
def basic_string_view.cons_from_array (pStr : List Nat) : basic_string_view :=
  { m_pData := pStr, m_nSize := pStr.length - 1 }

/-- A Unicode scalar value: below `0x110000` and not a surrogate.  Literal
source text consists of such scalars. -/
def ValidScalar (c : Nat) : Prop :=
  c < 0x110000 ∧ ¬ (0xD800 ≤ c ∧ c < 0xE000)

instance (c : Nat) : Decidable (ValidScalar c) := by
  unfold ValidScalar
  infer_instance

/-- Modelled from the spec: the compiler materializes the UTF-8 encoding of a
string literal (`u8` prefix, and the narrow `char` variant under a UTF-8
execution character set).  Standard UTF-8 encoding of one scalar value. -/
def utf8EncodeChar (c : Nat) : List Nat :=
  if c < 0x80 then [c]
  else if c < 0x800 then [0xC0 + c / 64, 0x80 + c % 64]
  else if c < 0x10000 then [0xE0 + c / 4096, 0x80 + c / 64 % 64, 0x80 + c % 64]
  else [0xF0 + c / 262144, 0x80 + c / 4096 % 64, 0x80 + c / 64 % 64, 0x80 + c % 64]

/-- Modelled from the spec: UTF-8 encoding of a scalar sequence. -/
def utf8Encode (cps : List Nat) : List Nat :=
  (cps.map utf8EncodeChar).flatten

/-- Modelled from the spec: the compiler materializes the UTF-16 encoding of a
string literal (`u` prefix).  Standard UTF-16 encoding of one scalar value:
BMP scalars are one unit, supplementary scalars a surrogate pair. -/
def utf16EncodeChar (c : Nat) : List Nat :=
  if c < 0x10000 then [c]
  else [0xD800 + (c - 0x10000) / 1024, 0xDC00 + (c - 0x10000) % 1024]

/-- Modelled from the spec: UTF-16 encoding of a scalar sequence. -/
def utf16Encode (cps : List Nat) : List Nat :=
  (cps.map utf16EncodeChar).flatten

/-- The narrow `char` variant of a literal (the baseline of the self-test):
modelled from the spec as UTF-8 bytes under a UTF-8 execution character set. -/
def lit_char (cps : List Nat) : List Nat :=
  utf8Encode cps

/-- The `char8_t` variant of a literal: UTF-8 code units. -/
def lit_char8 (cps : List Nat) : List Nat :=
  utf8Encode cps

/-- The `char16_t` variant of a literal: UTF-16 code units. -/
def lit_char16 (cps : List Nat) : List Nat :=
  utf16Encode cps

/-- The `char32_t` variant of a literal: one code unit per scalar value. -/
def lit_char32 (cps : List Nat) : List Nat :=
  cps

/-- Embeds `char8_to_char` (src/test.cpp lines 48-58): converts each `char8_t`
code unit to `char` with `static_cast<char>` (byte-for-byte; `% 256` models
keeping the byte's bit pattern). -/
def char8_to_char (sText : List Nat) : List Nat :=
  sText.map fun c => c % 256

/-- Modelled from the spec: `utf8::utf16to8` of the external utf8cpp library
used by the self-test (src/test.cpp line 83) decodes UTF-16 code units to
scalars and re-encodes them as UTF-8.  Unpaired surrogates do not arise in the
valid inputs this development uses; the model leaves their handling trivial. -/
def utf16to8 : List Nat → List Nat
  | [] => []
  | [u] => if u < 0xD800 ∨ 0xE000 ≤ u then utf8EncodeChar u else []
  | u :: u2 :: rest =>
    if u < 0xD800 ∨ 0xE000 ≤ u then utf8EncodeChar u ++ utf16to8 (u2 :: rest)
    else utf8EncodeChar (0x10000 + (u - 0xD800) * 1024 + (u2 - 0xDC00)) ++ utf16to8 rest

/-- Modelled from the spec: `utf8::utf32to8` of the external utf8cpp library
used by the self-test (src/test.cpp line 84) encodes each UTF-32 code unit as
UTF-8, one scalar at a time. -/
def utf32to8 : List Nat → List Nat
  | [] => []
  | c :: rest => utf8EncodeChar c ++ utf32to8 rest

/-- C1: for every `poly_enc` value `p` and every supported character type `T`,
`p.visit T` and `visit_poly_enc T p` return exactly the stored field of `p`
that corresponds to `T` (`TXT_CHAR` for `char`, `TXT_CHAR_W` for `wchar_t`,
`TXT_CHAR_8` for `char8_t`, `TXT_CHAR_16` for `char16_t`, `TXT_CHAR_32` for
`char32_t`), unchanged. -/
theorem C1_visit_selects_matching_field (p : poly_enc) :
    p.visit Ty.char = p.TXT_CHAR ∧
    p.visit Ty.wchar_t = p.TXT_CHAR_W ∧
    p.visit Ty.char8_t = p.TXT_CHAR_8 ∧
    p.visit Ty.char16_t = p.TXT_CHAR_16 ∧
    p.visit Ty.char32_t = p.TXT_CHAR_32 ∧
    visit_poly_enc Ty.char p = p.TXT_CHAR ∧
    visit_poly_enc Ty.wchar_t p = p.TXT_CHAR_W ∧
    visit_poly_enc Ty.char8_t p = p.TXT_CHAR_8 ∧
    visit_poly_enc Ty.char16_t p = p.TXT_CHAR_16 ∧
    visit_poly_enc Ty.char32_t p = p.TXT_CHAR_32 :=
  ⟨rfl, rfl, rfl, rfl, rfl, rfl, rfl, rfl, rfl, rfl⟩

/-- C2: constructing `poly_enc` from five views and then selecting with each
supported character type yields back the very argument view that was passed
for that type. -/
theorem C2_cons_then_visit_roundtrip (v1 v2 v3 v4 v5 : List Nat) :
    (poly_enc.cons v1 v2 v3 v4 v5).visit Ty.char = v1 ∧
    (poly_enc.cons v1 v2 v3 v4 v5).visit Ty.wchar_t = v2 ∧
    (poly_enc.cons v1 v2 v3 v4 v5).visit Ty.char8_t = v3 ∧
    (poly_enc.cons v1 v2 v3 v4 v5).visit Ty.char16_t = v4 ∧
    (poly_enc.cons v1 v2 v3 v4 v5).visit Ty.char32_t = v5 :=
  ⟨rfl, rfl, rfl, rfl, rfl⟩

/-- C3 counterexample: at the concrete unsupported type `Ty.other 0`, the
pre-C++20 standard levels do not return an empty view at runtime: the
instantiation does not compile at all, because the C++17 `static_assert`
condition is false and no C++14/C++11 specialization exists while the primary
template's `static_assert` condition is literally false. -/
theorem C3_counterexample_old_levels_do_not_compile :
    visit17_compiles (Ty.other 0) = false ∧ visit14_compiles (Ty.other 0) = false := by
  constructor <;> rfl

/-- C3 (amended): for every character type `T` outside the five supported
ones, requesting a view fails to compile at every standard level: at C++20 the
`CharType` concept (`is_char`) rejects `T`; at C++17 the `static_assert` at
the end of `visit` fails; at C++14/C++11 no specialization exists and the
primary template's `static_assert` is false.  The (unreachable) fallback
branch of the C++20 and C++17 dispatch would return an empty view of `T`. -/
theorem C3_amended_unsupported_type_rejected (T : Ty)
    (h : T ∉ [Ty.char, Ty.wchar_t, Ty.char8_t, Ty.char16_t, Ty.char32_t]) :
    is_char T = false ∧
    visit17_compiles T = false ∧
    visit14_compiles T = false ∧
    (∀ p : poly_enc, p.visit T = []) ∧
    (∀ p : poly_enc17, p.visit T = []) := by
  cases T <;>
    simp_all [is_char, visit17_compiles, visit17_assert_cond, visit14_compiles,
      visit14_has_specialization, visit14_primary_assert_cond,
      poly_enc.visit, poly_enc17.visit]

/-- Witness for C3 (amended) at the concrete unsupported type `Ty.other 7`
and concrete containers. -/
theorem C3_amended_witness :
    is_char (Ty.other 7) = false ∧
    visit17_compiles (Ty.other 7) = false ∧
    visit14_compiles (Ty.other 7) = false ∧
    (poly_enc.cons [1] [2] [3] [4] [5]).visit (Ty.other 7) = [] ∧
    (poly_enc17.mk [1] [2] [4] [5]).visit (Ty.other 7) = [] :=
  have h := C3_amended_unsupported_type_rejected (Ty.other 7) (by decide)
  ⟨h.1, h.2.1, h.2.2.1, h.2.2.2.1 _, h.2.2.2.2 _⟩

/-- C4 counterexample: a runtime error path does exist: on the concrete empty
fallback view, both `at` and `operator[]` at index `0` throw
`std::out_of_range`, so not every public operation of the fallback
`basic_string_view` is error-free. -/
theorem C4_counterexample_at_throws :
    (basic_string_view.mk [] 0).at_idx 0 = Except.error oor_msg ∧
    (basic_string_view.mk [] 0).op_index 0 = Except.error oor_msg :=
  ⟨rfl, rfl⟩

/-- C4 (amended): the C++20 core has no runtime error path: `visit` always
returns one of the five stored views (or the empty view in its dead fallback
branch) and `visit_poly_enc` merely delegates to it; on older standard levels
the fallback `basic_string_view`'s `operator[]` and `at` throw
`std::out_of_range` exactly when the index reaches the stored length, and
never signal an error otherwise. -/
theorem C4_amended_error_paths (T : Ty) (p : poly_enc)
    (v : basic_string_view) (pos : Nat) :
    (p.visit T = p.TXT_CHAR ∨ p.visit T = p.TXT_CHAR_W ∨ p.visit T = p.TXT_CHAR_8 ∨
      p.visit T = p.TXT_CHAR_16 ∨ p.visit T = p.TXT_CHAR_32 ∨ p.visit T = []) ∧
    visit_poly_enc T p = p.visit T ∧
    (v.op_index pos = Except.error oor_msg ↔ v.length ≤ pos) ∧
    (v.at_idx pos = Except.error oor_msg ↔ v.length ≤ pos) := by
  refine ⟨?_, rfl, ?_, ?_⟩
  · cases T <;> simp [poly_enc.visit]
  · unfold basic_string_view.op_index basic_string_view.length
    split <;> simp_all
  · unfold basic_string_view.at_idx basic_string_view.length
    split <;> simp_all

/-- Witness for C4 (amended) at a concrete type tag, container, view and
index. -/
theorem C4_amended_witness :
    ((poly_enc.cons [9] [8] [7] [6] [5]).visit Ty.char = [9] ∨
      (poly_enc.cons [9] [8] [7] [6] [5]).visit Ty.char = [8] ∨
      (poly_enc.cons [9] [8] [7] [6] [5]).visit Ty.char = [7] ∨
      (poly_enc.cons [9] [8] [7] [6] [5]).visit Ty.char = [6] ∨
      (poly_enc.cons [9] [8] [7] [6] [5]).visit Ty.char = [5] ∨
      (poly_enc.cons [9] [8] [7] [6] [5]).visit Ty.char = []) ∧
    visit_poly_enc Ty.char (poly_enc.cons [9] [8] [7] [6] [5]) =
      (poly_enc.cons [9] [8] [7] [6] [5]).visit Ty.char ∧
    ((basic_string_view.mk [3, 4] 2).op_index 5 = Except.error oor_msg ↔
      (basic_string_view.mk [3, 4] 2).length ≤ 5) ∧
    ((basic_string_view.mk [3, 4] 2).at_idx 5 = Except.error oor_msg ↔
      (basic_string_view.mk [3, 4] 2).length ≤ 5) :=
  C4_amended_error_paths Ty.char (poly_enc.cons [9] [8] [7] [6] [5])
    (basic_string_view.mk [3, 4] 2) 5

/-- C6: a `poly_enc` value is never mutated: the state-passing translation of
`visit` (and of `visit_poly_enc`) leaves every one of the five stored fields
of the receiver unchanged while returning the same view as `visit`. -/
theorem C6_visit_does_not_mutate (p : poly_enc) (T : Ty) :
    (p.visitSt T).2.TXT_CHAR = p.TXT_CHAR ∧
    (p.visitSt T).2.TXT_CHAR_W = p.TXT_CHAR_W ∧
    (p.visitSt T).2.TXT_CHAR_8 = p.TXT_CHAR_8 ∧
    (p.visitSt T).2.TXT_CHAR_16 = p.TXT_CHAR_16 ∧
    (p.visitSt T).2.TXT_CHAR_32 = p.TXT_CHAR_32 ∧
    (p.visitSt T).2 = p ∧
    (visit_poly_encSt T p).2 = p ∧
    (p.visitSt T).1 = p.visit T ∧
    (visit_poly_encSt T p).1 = visit_poly_enc T p :=
  ⟨rfl, rfl, rfl, rfl, rfl, rfl, rfl, rfl, rfl⟩

/-- C7: selection is deterministic and depends only on the five stored
fields: on any two `poly_enc` values whose fields are pairwise equal,
`visit_poly_enc` and `visit` return equal views for every type tag. -/
theorem C7_visit_depends_only_on_fields (p q : poly_enc) (T : Ty)
    (h1 : p.TXT_CHAR = q.TXT_CHAR) (h2 : p.TXT_CHAR_W = q.TXT_CHAR_W)
    (h3 : p.TXT_CHAR_8 = q.TXT_CHAR_8) (h4 : p.TXT_CHAR_16 = q.TXT_CHAR_16)
    (h5 : p.TXT_CHAR_32 = q.TXT_CHAR_32) :
    visit_poly_enc T p = visit_poly_enc T q ∧ p.visit T = q.visit T := by
  cases p
  cases q
  simp_all

/-- Witness for C7 at concrete containers with pairwise equal fields. -/
theorem C7_witness :
    visit_poly_enc Ty.char16_t (poly_enc.cons [1] [2] [3] [4] [5]) =
      visit_poly_enc Ty.char16_t (poly_enc.mk [1] [2] [3] [4] [5]) ∧
    (poly_enc.cons [1] [2] [3] [4] [5]).visit Ty.char16_t =
      (poly_enc.mk [1] [2] [3] [4] [5]).visit Ty.char16_t :=
  C7_visit_depends_only_on_fields (poly_enc.cons [1] [2] [3] [4] [5])
    (poly_enc.mk [1] [2] [3] [4] [5]) Ty.char16_t rfl rfl rfl rfl rfl

/-- C8: on a view whose stored size does not exceed the provided data, both
`operator[]` and `at` throw `std::out_of_range` if and only if the index
reaches the view's length, and otherwise return the character at that offset
of the viewed data. -/
theorem C8_index_and_at_bounds_checked (v : basic_string_view) (pos : Nat)
    (hwf : v.m_nSize ≤ v.m_pData.length) :
    (v.op_index pos = Except.error oor_msg ↔ v.length ≤ pos) ∧
    (v.at_idx pos = Except.error oor_msg ↔ v.length ≤ pos) ∧
    (∀ h : pos < v.length,
      v.op_index pos = Except.ok (v.m_pData.get ⟨pos, Nat.lt_of_lt_of_le h hwf⟩)) ∧
    (∀ h : pos < v.length,
      v.at_idx pos = Except.ok (v.m_pData.get ⟨pos, Nat.lt_of_lt_of_le h hwf⟩)) := by
  unfold basic_string_view.op_index basic_string_view.at_idx basic_string_view.length
  refine ⟨by split <;> simp_all, by split <;> simp_all, ?_, ?_⟩ <;>
    · intro h
      rw [if_neg (by omega),
        List.getD_eq_getElem v.m_pData 0 (Nat.lt_of_lt_of_le h hwf)]
      simp [List.get_eq_getElem]

/-- Witness for C8 at a concrete view (data `[7, 8]`, stored size 2) and the
concrete in-range index 1. -/
theorem C8_witness :
    (basic_string_view.mk [7, 8] 2).op_index 1 =
      Except.ok ((basic_string_view.mk [7, 8] 2).m_pData.get ⟨1, by decide⟩) :=
  (C8_index_and_at_bounds_checked (basic_string_view.mk [7, 8] 2) 1
    (by decide)).2.2.1 (by decide)

/-- Characterization of the fallback `operator==`: true exactly when the two
stored sizes agree and the read characters agree at every index below the
size. -/
theorem op_eq_true_iff (a b : basic_string_view) :
    a.op_eq b = true ↔
      a.m_nSize = b.m_nSize ∧
        ∀ i, i < a.m_nSize → a.m_pData.getD i 0 = b.m_pData.getD i 0 := by
  unfold basic_string_view.op_eq
  by_cases h : a.m_nSize = b.m_nSize
  · simp [h, List.all_eq_true, List.mem_range]
  · simp [h]

/-- C9: the fallback `operator==` returns true exactly when the lengths agree
and the characters agree at every index below the length; `operator!=` is its
exact negation; and the induced relation is reflexive, symmetric and
transitive. -/
theorem C9_equality_characterised (a b c : basic_string_view) :
    (a.op_eq b = true ↔
      a.m_nSize = b.m_nSize ∧
        ∀ i, i < a.m_nSize → a.m_pData.getD i 0 = b.m_pData.getD i 0) ∧
    a.op_ne b = !(a.op_eq b) ∧
    a.op_eq a = true ∧
    (a.op_eq b = true → b.op_eq a = true) ∧
    (a.op_eq b = true → b.op_eq c = true → a.op_eq c = true) := by
  refine ⟨op_eq_true_iff a b, rfl, ?_, ?_, ?_⟩
  · exact (op_eq_true_iff a a).mpr ⟨rfl, fun i _ => rfl⟩
  · intro h
    obtain ⟨hs, hc⟩ := (op_eq_true_iff a b).mp h
    exact (op_eq_true_iff b a).mpr ⟨hs.symm, fun i hi => (hc i (by omega)).symm⟩
  · intro h1 h2
    obtain ⟨hs1, hc1⟩ := (op_eq_true_iff a b).mp h1
    obtain ⟨hs2, hc2⟩ := (op_eq_true_iff b c).mp h2
    exact (op_eq_true_iff a c).mpr
      ⟨hs1.trans hs2, fun i hi => (hc1 i hi).trans (hc2 i (by omega))⟩

/-- Witness for C9: transitivity applied to three concrete views that compare
equal pairwise. -/
theorem C9_witness :
    (basic_string_view.mk [1, 2] 2).op_eq (basic_string_view.mk [1, 2, 3, 4] 2) = true :=
  (C9_equality_characterised (basic_string_view.mk [1, 2] 2)
    (basic_string_view.mk [1, 2, 9] 2)
    (basic_string_view.mk [1, 2, 3, 4] 2)).2.2.2.2 (by decide) (by decide)

/-- `str_len` computes the position of the first null when everything before
it is non-null. -/
theorem str_len_eq_of_first_null (l : List Nat) (k : Nat)
    (hk : k < l.length) (hnz : ∀ i, i < k → l.getD i 0 ≠ 0) (hz : l.getD k 0 = 0) :
    str_len l = k := by
  induction l generalizing k with
  | nil => simp at hk
  | cons c t ih =>
    cases k with
    | zero =>
      simp only [List.getD_cons_zero] at hz
      simp [str_len, hz]
    | succ k' =>
      have hc : c ≠ 0 := by
        have := hnz 0 (Nat.succ_pos k')
        simpa using this
      simp only [str_len, if_neg hc]
      have : str_len t = k' := by
        refine ih k' (by simpa using hk) (fun i hi => ?_) (by simpa using hz)
        have := hnz (i + 1) (by omega)
        simpa using this
      omega

/-- `str_len` never passes a null: a null at index `i` bounds it by `i`. -/
theorem str_len_le_of_null (l : List Nat) (i : Nat)
    (hi : i < l.length) (hz : l.getD i 0 = 0) : str_len l ≤ i := by
  induction l generalizing i with
  | nil => simp at hi
  | cons c t ih =>
    cases i with
    | zero =>
      simp only [List.getD_cons_zero] at hz
      simp [str_len, hz]
    | succ i' =>
      by_cases hc : c = 0
      · simp [str_len, hc]
      · simp only [str_len, if_neg hc]
        have := ih i' (by simpa using hi) (by simpa using hz)
        omega

/-- C10: the C++11 array-reference constructor and the C++14 pointer
constructor agree on arrays whose only null is the final one, and assign
different lengths as soon as a null is embedded before the final index. -/
theorem C10_constructors_agree_iff_no_embedded_null :
    (∀ l : List Nat, l ≠ [] →
      (∀ i, i < l.length - 1 → l.getD i 0 ≠ 0) →
      l.getD (l.length - 1) 0 = 0 →
      basic_string_view.cons_from_array l = basic_string_view.cons_from_ptr l) ∧
    (∀ (l : List Nat) (i : Nat), i < l.length - 1 → l.getD i 0 = 0 →
      (basic_string_view.cons_from_array l).m_nSize ≠
        (basic_string_view.cons_from_ptr l).m_nSize) := by
  constructor
  · intro l hne hnz hz
    have hlen : 0 < l.length := List.length_pos.mpr hne
    have hsl : str_len l = l.length - 1 :=
      str_len_eq_of_first_null l (l.length - 1) (by omega) hnz hz
    unfold basic_string_view.cons_from_array basic_string_view.cons_from_ptr
    rw [hsl]
  · intro l i hi hz
    have hle : str_len l ≤ i := str_len_le_of_null l i (by omega) hz
    unfold basic_string_view.cons_from_array basic_string_view.cons_from_ptr
    simp only []
    omega

/-- Witness for C10: the two constructors agree on the concrete
null-terminated array `[104, 105, 0]` and assign different lengths on the
concrete array `[104, 0, 105, 0]`, which embeds a null at index 1. -/
theorem C10_witness :
    basic_string_view.cons_from_array [104, 105, 0] =
      basic_string_view.cons_from_ptr [104, 105, 0] ∧
    (basic_string_view.cons_from_array [104, 0, 105, 0]).m_nSize ≠
      (basic_string_view.cons_from_ptr [104, 0, 105, 0]).m_nSize :=
  ⟨C10_constructors_agree_iff_no_embedded_null.1 [104, 105, 0]
      (by decide) (by decide) (by decide),
    C10_constructors_agree_iff_no_embedded_null.2 [104, 0, 105, 0] 1
      (by decide) (by decide)⟩

/-- Every code unit of the UTF-8 encoding of a scalar below `0x110000` fits
in one byte. -/
theorem utf8EncodeChar_lt_256 (c : Nat) (hc : c < 0x110000) :
    ∀ b ∈ utf8EncodeChar c, b < 256 := by
  intro b hb
  unfold utf8EncodeChar at hb
  split at hb
  · simp at hb; omega
  · split at hb
    · simp at hb; rcases hb with rfl | rfl <;> omega
    · split at hb
      · simp at hb; rcases hb with rfl | rfl | rfl <;> omega
      · simp at hb; rcases hb with rfl | rfl | rfl | rfl <;> omega

/-- Unfolding equation for `utf8Encode` on a cons cell. -/
theorem utf8Encode_cons (c : Nat) (cps : List Nat) :
    utf8Encode (c :: cps) = utf8EncodeChar c ++ utf8Encode cps := by
  simp [utf8Encode]

/-- Every code unit of the UTF-8 encoding of scalars fits in one byte. -/
theorem utf8Encode_lt_256 (cps : List Nat) (h : ∀ c ∈ cps, c < 0x110000) :
    ∀ b ∈ utf8Encode cps, b < 256 := by
  induction cps with
  | nil => simp [utf8Encode]
  | cons c t ih =>
    rw [utf8Encode_cons]
    intro b hb
    rcases List.mem_append.mp hb with h1 | h2
    · exact utf8EncodeChar_lt_256 c (h c (by simp)) b h1
    · exact ih (fun x hx => h x (by simp [hx])) b h2

/-- Reducing every element of a list of bytes modulo 256 is the identity. -/
theorem map_mod_256_eq_self (l : List Nat) (h : ∀ b ∈ l, b < 256) :
    (l.map fun b => b % 256) = l := by
  induction l with
  | nil => rfl
  | cons b t ih =>
    simp only [List.map_cons]
    rw [Nat.mod_eq_of_lt (h b (by simp)), ih (fun x hx => h x (by simp [hx]))]

/-- The modelled `utf8::utf32to8` agrees with direct UTF-8 encoding. -/
theorem utf32to8_eq_utf8Encode (cps : List Nat) : utf32to8 cps = utf8Encode cps := by
  induction cps with
  | nil => rfl
  | cons c t ih => rw [utf32to8, utf8Encode_cons, ih]

/-- Unfolding equation for `utf16Encode` on a cons cell. -/
theorem utf16Encode_cons (c : Nat) (cps : List Nat) :
    utf16Encode (c :: cps) = utf16EncodeChar c ++ utf16Encode cps := by
  simp [utf16Encode]

/-- `utf16to8` consumes a single non-surrogate code unit at the head. -/
theorem utf16to8_cons_bmp (u : Nat) (l : List Nat) (h : u < 0xD800 ∨ 0xE000 ≤ u) :
    utf16to8 (u :: l) = utf8EncodeChar u ++ utf16to8 l := by
  cases l with
  | nil =>
    simp only [utf16to8]
    rw [if_pos h]
    simp
  | cons u2 rest =>
    simp only [utf16to8]
    rw [if_pos h]

/-- `utf16to8` recombines the surrogate pair of a supplementary scalar. -/
theorem utf16to8_cons_pair (c : Nat) (l : List Nat)
    (h1 : 0x10000 ≤ c) (h2 : c < 0x110000) :
    utf16to8 ((0xD800 + (c - 0x10000) / 1024) :: (0xDC00 + (c - 0x10000) % 1024) :: l) =
      utf8EncodeChar c ++ utf16to8 l := by
  have hcond : ¬(0xD800 + (c - 0x10000) / 1024 < 0xD800 ∨
      0xE000 ≤ 0xD800 + (c - 0x10000) / 1024) := by omega
  have harg : 0x10000 + (0xD800 + (c - 0x10000) / 1024 - 0xD800) * 1024 +
      (0xDC00 + (c - 0x10000) % 1024 - 0xDC00) = c := by omega
  simp only [utf16to8]
  rw [if_neg hcond, harg]

/-- Converting the UTF-16 encoding of valid scalars back to UTF-8 yields the
direct UTF-8 encoding. -/
theorem utf16to8_utf16Encode (cps : List Nat) (h : ∀ c ∈ cps, ValidScalar c) :
    utf16to8 (utf16Encode cps) = utf8Encode cps := by
  induction cps with
  | nil => rfl
  | cons c t ih =>
    have hc : ValidScalar c := h c (by simp)
    have ht : ∀ x ∈ t, ValidScalar x := fun x hx => h x (by simp [hx])
    rw [utf16Encode_cons, utf8Encode_cons]
    by_cases hbmp : c < 0x10000
    · have he : utf16EncodeChar c = [c] := by simp [utf16EncodeChar, hbmp]
      rw [he, List.singleton_append,
        utf16to8_cons_bmp c _ (by obtain ⟨hlt, hsur⟩ := hc; omega), ih ht]
    · have he : utf16EncodeChar c =
          [0xD800 + (c - 0x10000) / 1024, 0xDC00 + (c - 0x10000) % 1024] := by
        simp [utf16EncodeChar, hbmp]
      rw [he, List.cons_append, List.singleton_append,
        utf16to8_cons_pair c _ (by omega) hc.1, ih ht]

/-- C5: for every literal (a sequence of Unicode scalar values), each encoding
variant, converted to the common comparable form of the self-test, equals the
narrow-character baseline: narrowing the `char8_t` variant byte-by-byte,
converting the `char16_t` variant from UTF-16 to UTF-8, and converting the
`char32_t` variant from UTF-32 to UTF-8 each yield the `char` variant. -/
theorem C5_variants_agree_after_conversion (cps : List Nat)
    (h : ∀ c ∈ cps, ValidScalar c) :
    char8_to_char (lit_char8 cps) = lit_char cps ∧
    utf16to8 (lit_char16 cps) = lit_char cps ∧
    utf32to8 (lit_char32 cps) = lit_char cps := by
  refine ⟨?_, ?_, ?_⟩
  · exact map_mod_256_eq_self _ (utf8Encode_lt_256 cps fun c hcm => (h c hcm).1)
  · exact utf16to8_utf16Encode cps h
  · exact utf32to8_eq_utf8Encode cps

/-- Witness for C5 at the concrete code points of the self-test literal
(Hello World, a supplementary-plane emoji, an exclamation mark). -/
theorem C5_witness :
    char8_to_char (lit_char8
        [72, 101, 108, 108, 111, 32, 87, 111, 114, 108, 100, 32, 128512, 33]) =
      lit_char [72, 101, 108, 108, 111, 32, 87, 111, 114, 108, 100, 32, 128512, 33] ∧
    utf16to8 (lit_char16
        [72, 101, 108, 108, 111, 32, 87, 111, 114, 108, 100, 32, 128512, 33]) =
      lit_char [72, 101, 108, 108, 111, 32, 87, 111, 114, 108, 100, 32, 128512, 33] ∧
    utf32to8 (lit_char32
        [72, 101, 108, 108, 111, 32, 87, 111, 114, 108, 100, 32, 128512, 33]) =
      lit_char [72, 101, 108, 108, 111, 32, 87, 111, 114, 108, 100, 32, 128512, 33] :=
  C5_variants_agree_after_conversion
    [72, 101, 108, 108, 111, 32, 87, 111, 114, 108, 100, 32, 128512, 33] (by decide)

end Utf42
